import Mathlib

/-
Verification of the reactive cache-adapter subsystem of the sandbox
repository (MobX + TanStack Query bridge, entity stores and their
cache-invalidation protocol).

The definitions below are a shallow embedding of the client sources:
  - the domain DTOs (packages/common/src/types),
  - the query-cache operations used by the entity stores
    (setQueryData with an updater, invalidateQueries by key-prefix match,
    getQueryData),
  - the onSuccess handlers of every create/update/delete mutation of the
    Roles/Groups/Users entity stores (HTTP and WebSocket transports),
  - the cache-first read-by-id helpers (getGroupById),
  - the MobxQuery / MobxMutation adapter behaviour
    (services/query/MobxQuery.ts and the MobxMutation source),
  - the WebSocketApi.emit acknowledgment/timeout protocol.
Entity ids are JavaScript numbers used only for equality; they are
modelled as Nat.  console.log calls are pure tracing and are omitted.
-/

namespace Sandbox

/-- RoleDto from packages/common: { id, name }. -/
structure RoleDto where
  id : Nat
  name : String
deriving DecidableEq, Repr

/-- GroupDto from packages/common: { id, name, roles, description? }. -/
structure GroupDto where
  id : Nat
  name : String
  roles : List Nat
  description : Option String
deriving DecidableEq, Repr

/-- UserDto from packages/common: { id, name, email }. -/
structure UserDto where
  id : Nat
  name : String
  email : String
deriving DecidableEq, Repr

/-- AccessDto from packages/common: { subject, groups }. -/
structure AccessDto where
  subject : Nat
  groups : List Nat
deriving DecidableEq, Repr

/-- The `{ id }` payload returned by the delete endpoints. -/
structure DeleteResult where
  id : Nat
deriving DecidableEq, Repr

/-- ApiResponse from packages/common/src/utils/Api.ts: the tagged union
`{success: true, data} | {success: false, error}`. -/
inductive ApiResponse (α : Type) where
  | success (data : α)
  | failure (error : String)
deriving DecidableEq, Repr

/-- A TanStack query key: an ordered sequence of string tokens,
e.g. `["groups", "http"]`. -/
abbrev QueryKey := List String

/-- The list-shaped values the entity stores place in the query cache,
one case per entity collection. -/
inductive CacheData where
  | roles (records : List RoleDto)
  | groups (records : List GroupDto)
  | users (records : List UserDto)
  | access (records : List AccessDto)
deriving DecidableEq, Repr

/-- One cache entry: its data plus whether it has been marked stale
(invalidated).  `invalidateQueries` sets `stale` and keeps the data. -/
structure CacheEntry where
  data : CacheData
  stale : Bool
deriving DecidableEq, Repr

/-- The query cache: an association list from query keys to entries. -/
abbrev QueryCache := List (QueryKey × CacheEntry)

/-- Look up the entry stored under a key (first match). -/
def getEntry : QueryCache → QueryKey → Option CacheEntry
  | [], _ => none
  | (k, e) :: rest, key => if k = key then some e else getEntry rest key

/-- Store an entry under a key, replacing an existing entry for that key
or appending a new one. -/
def writeEntry (key : QueryKey) (e : CacheEntry) : QueryCache → QueryCache
  | [] => [(key, e)]
  | (k, e0) :: rest =>
      if k = key then (key, e) :: rest else (k, e0) :: writeEntry key e rest

/-- TanStack partial key matching: `pat` matches `key` when `pat` is a
componentwise prefix of `key` (so `["groups"]` matches both
`["groups","http"]` and `["groups","websocket"]`). -/
def partialMatchKey : QueryKey → QueryKey → Bool
  | [], _ => true
  | _ :: _, [] => false
  | a :: pat, b :: key => a == b && partialMatchKey pat key

/-- `queryClient.invalidateQueries({ queryKey: pat })`: mark every entry
whose key matches `pat` stale.  Entries are never removed and their data
is untouched. -/
def invalidateQueries (pat : QueryKey) (c : QueryCache) : QueryCache :=
  c.map (fun p =>
    if partialMatchKey pat p.1 then (p.1, { p.2 with stale := true }) else p)

/-- `queryClient.getQueryData<GroupDto[]>(key)`: the cached groups list,
or `none` when no entry exists.  (A non-groups-shaped value under a
groups key never occurs in the program; it also reads as `none`.) -/
def getQueryDataGroups (c : QueryCache) (key : QueryKey) : Option (List GroupDto) :=
  match getEntry c key with
  | some { data := CacheData.groups l, stale := _ } => some l
  | _ => none

/-- The `(old = []) => ...` binding used by every list updater passed to
`setQueryData`: the current cached groups list, defaulting to `[]` when
the entry is absent. -/
def oldGroups (c : QueryCache) (key : QueryKey) : List GroupDto :=
  (getQueryDataGroups c key).getD []

/-- As `getQueryDataGroups` but for roles lists. -/
def getQueryDataRoles (c : QueryCache) (key : QueryKey) : Option (List RoleDto) :=
  match getEntry c key with
  | some { data := CacheData.roles l, stale := _ } => some l
  | _ => none

/-- The roles-list `(old = [])` default binding. -/
def oldRoles (c : QueryCache) (key : QueryKey) : List RoleDto :=
  (getQueryDataRoles c key).getD []

/-- As `getQueryDataGroups` but for users lists. -/
def getQueryDataUsers (c : QueryCache) (key : QueryKey) : Option (List UserDto) :=
  match getEntry c key with
  | some { data := CacheData.users l, stale := _ } => some l
  | _ => none

/-- The users-list `(old = [])` default binding. -/
def oldUsers (c : QueryCache) (key : QueryKey) : List UserDto :=
  (getQueryDataUsers c key).getD []

/-- `queryClient.setQueryData<RoleDto[]>(key, updater)`: apply the updater
to the current list (absent reads as `[]`) and store the result as a
fresh (non-stale) entry. -/
def setQueryDataRoles (key : QueryKey) (updater : List RoleDto → List RoleDto)
    (c : QueryCache) : QueryCache :=
  writeEntry key { data := CacheData.roles (updater (oldRoles c key)), stale := false } c

/-- `setQueryData` for groups lists. -/
def setQueryDataGroups (key : QueryKey) (updater : List GroupDto → List GroupDto)
    (c : QueryCache) : QueryCache :=
  writeEntry key { data := CacheData.groups (updater (oldGroups c key)), stale := false } c

/-- `setQueryData` for users lists. -/
def setQueryDataUsers (key : QueryKey) (updater : List UserDto → List UserDto)
    (c : QueryCache) : QueryCache :=
  writeEntry key { data := CacheData.users (updater (oldUsers c key)), stale := false } c

/-! ### onSuccess handlers of the entity-store mutations

Each definition is the cache effect of the corresponding mutation's
`onSuccess` callback, transcribed from the entity-store sources.  The
spread `[...old, x]` is `old ++ [x]`, `old.map(r => r.id === x.id ? x : r)`
is the pointwise replacement, and `old.filter(r => r.id !== data.id)` is
the filter; `console.log` lines are omitted. -/

/-- RolesEntityHttp.createRoleMutation onSuccess: append the new role to
`["roles","http"]`.  It performs no invalidation. -/
def rolesHttpCreateOnSuccess (newRole : RoleDto) (c : QueryCache) : QueryCache :=
  setQueryDataRoles ["roles", "http"] (fun old => old ++ [newRole]) c

/-- RolesEntityHttp.updateRoleMutation onSuccess: replace the matching
role in `["roles","http"]`, then invalidate `["groups"]`. -/
def rolesHttpUpdateOnSuccess (updatedRole : RoleDto) (c : QueryCache) : QueryCache :=
  invalidateQueries ["groups"]
    (setQueryDataRoles ["roles", "http"]
      (List.map (fun role => if role.id == updatedRole.id then updatedRole else role)) c)

/-- RolesEntityHttp.deleteRoleMutation onSuccess: remove the matching
role from `["roles","http"]`, then invalidate `["groups"]`. -/
def rolesHttpDeleteOnSuccess (data : DeleteResult) (c : QueryCache) : QueryCache :=
  invalidateQueries ["groups"]
    (setQueryDataRoles ["roles", "http"]
      (List.filter (fun role => !(role.id == data.id))) c)

/-- RolesEntityWebSocket.createRoleMutation onSuccess: append to
`["roles","websocket"]`; no invalidation. -/
def rolesWsCreateOnSuccess (newRole : RoleDto) (c : QueryCache) : QueryCache :=
  setQueryDataRoles ["roles", "websocket"] (fun old => old ++ [newRole]) c

/-- RolesEntityWebSocket.updateRoleMutation onSuccess. -/
def rolesWsUpdateOnSuccess (updatedRole : RoleDto) (c : QueryCache) : QueryCache :=
  invalidateQueries ["groups"]
    (setQueryDataRoles ["roles", "websocket"]
      (List.map (fun role => if role.id == updatedRole.id then updatedRole else role)) c)

/-- RolesEntityWebSocket.deleteRoleMutation onSuccess. -/
def rolesWsDeleteOnSuccess (data : DeleteResult) (c : QueryCache) : QueryCache :=
  invalidateQueries ["groups"]
    (setQueryDataRoles ["roles", "websocket"]
      (List.filter (fun role => !(role.id == data.id))) c)

/-- GroupsEntityHttp.createGroupMutation onSuccess: append the new group
to `["groups","http"]`, then invalidate `["access"]`. -/
def groupsHttpCreateOnSuccess (newGroup : GroupDto) (c : QueryCache) : QueryCache :=
  invalidateQueries ["access"]
    (setQueryDataGroups ["groups", "http"] (fun old => old ++ [newGroup]) c)

/-- GroupsEntityHttp.updateGroupMutation onSuccess. -/
def groupsHttpUpdateOnSuccess (updatedGroup : GroupDto) (c : QueryCache) : QueryCache :=
  invalidateQueries ["access"]
    (setQueryDataGroups ["groups", "http"]
      (List.map (fun group => if group.id == updatedGroup.id then updatedGroup else group)) c)

/-- GroupsEntityHttp.deleteGroupMutation onSuccess. -/
def groupsHttpDeleteOnSuccess (data : DeleteResult) (c : QueryCache) : QueryCache :=
  invalidateQueries ["access"]
    (setQueryDataGroups ["groups", "http"]
      (List.filter (fun group => !(group.id == data.id))) c)

/-- GroupsEntityWebSocket.createGroupMutation onSuccess. -/
def groupsWsCreateOnSuccess (newGroup : GroupDto) (c : QueryCache) : QueryCache :=
  invalidateQueries ["access"]
    (setQueryDataGroups ["groups", "websocket"] (fun old => old ++ [newGroup]) c)

/-- GroupsEntityWebSocket.updateGroupMutation onSuccess. -/
def groupsWsUpdateOnSuccess (updatedGroup : GroupDto) (c : QueryCache) : QueryCache :=
  invalidateQueries ["access"]
    (setQueryDataGroups ["groups", "websocket"]
      (List.map (fun group => if group.id == updatedGroup.id then updatedGroup else group)) c)

/-- GroupsEntityWebSocket.deleteGroupMutation onSuccess. -/
def groupsWsDeleteOnSuccess (data : DeleteResult) (c : QueryCache) : QueryCache :=
  invalidateQueries ["access"]
    (setQueryDataGroups ["groups", "websocket"]
      (List.filter (fun group => !(group.id == data.id))) c)

/-- UsersEntityHttp.createUserMutation onSuccess: append the new user to
`["users","http"]`; no invalidation. -/
def usersHttpCreateOnSuccess (newUser : UserDto) (c : QueryCache) : QueryCache :=
  setQueryDataUsers ["users", "http"] (fun old => old ++ [newUser]) c

/-- UsersEntityHttp.updateUserMutation onSuccess. -/
def usersHttpUpdateOnSuccess (updatedUser : UserDto) (c : QueryCache) : QueryCache :=
  setQueryDataUsers ["users", "http"]
    (List.map (fun user => if user.id == updatedUser.id then updatedUser else user)) c

/-- UsersEntityHttp.deleteUserMutation onSuccess. -/
def usersHttpDeleteOnSuccess (data : DeleteResult) (c : QueryCache) : QueryCache :=
  setQueryDataUsers ["users", "http"]
    (List.filter (fun user => !(user.id == data.id))) c

/-! ### Transport-calling fetch/mutate functions of the entity stores

Each `...Fn` awaits one transport call and then unwraps the
`ApiResponse` envelope: `if (!response.success) throw new Error(response.error);
return response.data`.  The resolved envelope is a parameter (the
transport itself is an external collaborator); the unwrapping is the
entity store's own code. -/

/-- Unwrapping of the `ApiResponse` envelope shared by every fetch and
mutate function of the entity stores. -/
def unwrapResponse {α : Type} : ApiResponse α → Except String α
  | ApiResponse.success data => Except.ok data
  | ApiResponse.failure error => Except.error error

/-- RolesEntityHttp.createRoleFn: POST `/roles`, then unwrap. -/
def createRoleFn (response : ApiResponse RoleDto) : Except String RoleDto :=
  unwrapResponse response

/-- RolesEntityHttp.updateRoleFn: PUT `/roles/:id`, then unwrap. -/
def updateRoleFn (response : ApiResponse RoleDto) : Except String RoleDto :=
  unwrapResponse response

/-- RolesEntityHttp.deleteRoleFn: DELETE `/roles/:id`, then unwrap. -/
def deleteRoleFn (response : ApiResponse DeleteResult) : Except String DeleteResult :=
  unwrapResponse response

/-- GroupsEntityHttp.createGroupFn: POST `/groups`, then unwrap. -/
def createGroupFn (response : ApiResponse GroupDto) : Except String GroupDto :=
  unwrapResponse response

/-- GroupsEntityHttp.updateGroupFn: PUT `/groups/:id`, then unwrap. -/
def updateGroupFn (response : ApiResponse GroupDto) : Except String GroupDto :=
  unwrapResponse response

/-- GroupsEntityHttp.deleteGroupFn: DELETE `/groups/:id`, then unwrap. -/
def deleteGroupFn (response : ApiResponse DeleteResult) : Except String DeleteResult :=
  unwrapResponse response

/-! ### The Mutation Adapter's execute path

`MobxMutation.mutate` delegates to the cache library's
`MutationObserver.mutate`, whose body is not part of this repository's
sources.  Its contract is therefore modelled from the spec. -/

/-- Outcome of one `execute()` call: the cache state the caller's
continuation observes when the returned promise settles, how many times
the configured `onSuccess` callback ran, and the settled value
(`Except.error` is a rejected promise carrying the original error). -/
structure MutateOutcome (α : Type) where
  cache : QueryCache
  onSuccessCalls : Nat
  result : Except String α
deriving Repr

/-- Modelled from the spec: `MutationObserver.mutate` of the external
cache library (not under this repository's sources; only its caller
`MobxMutation.mutate` is).  Per the spec, `execute(variables)` invokes
`mutationFn(variables)`; on resolution it updates status to success,
invokes `onSuccess(result, variables)` exactly once, synchronously after
the write resolves and before the returned promise resolves; on
rejection it does not invoke `onSuccess`, leaves the cache untouched and
rejects the returned promise with the original error.  The already
settled underlying write is the `written` argument; `onSuccess` is the
cache effect of the configured callback. -/
def mutate {α : Type} (written : Except String α)
    (onSuccess : α → QueryCache → QueryCache) (c : QueryCache) : MutateOutcome α :=
  match written with
  | Except.ok data => { cache := onSuccess data c, onSuccessCalls := 1, result := Except.ok data }
  | Except.error e => { cache := c, onSuccessCalls := 0, result := Except.error e }

/-! ### Cache-first read-by-id helpers -/

/-- GroupsEntityHttp.getGroupById: first inspect the cached
`["groups","http"]` list for a record with the id; on a hit return it
without touching the transport; otherwise issue one GET and unwrap the
envelope.  The result pairs the returned/thrown value with the number of
transport calls made. -/
def getGroupByIdHttp (c : QueryCache) (transport : ApiResponse GroupDto)
    (id : Nat) : Except String GroupDto × Nat :=
  let cachedGroups := getQueryDataGroups c ["groups", "http"]
  match cachedGroups.bind (fun gs => gs.find? (fun g => g.id == id)) with
  | some cachedGroup => (Except.ok cachedGroup, 0)
  | none =>
      match transport with
      | ApiResponse.success data => (Except.ok data, 1)
      | ApiResponse.failure error => (Except.error error, 1)

/-- GroupsEntityWebSocket.getGroupById: identical shape over the
`["groups","websocket"]` entry and one `groups:getById` emit. -/
def getGroupByIdWs (c : QueryCache) (transport : ApiResponse GroupDto)
    (id : Nat) : Except String GroupDto × Nat :=
  let cachedGroups := getQueryDataGroups c ["groups", "websocket"]
  match cachedGroups.bind (fun gs => gs.find? (fun g => g.id == id)) with
  | some cachedGroup => (Except.ok cachedGroup, 0)
  | none =>
      match transport with
      | ApiResponse.success data => (Except.ok data, 1)
      | ApiResponse.failure error => (Except.error error, 1)

/-! ### MobxQuery / MobxMutation adapter lifecycle

`MobxQuery` creates a MobX atom whose first-observer hook
(`startTracking`) installs the option-change reaction and the
cache-observer subscription, and whose last-observer hook
(`stopTracking`) removes both.  Construction only stores the
config producer and builds the observer; it performs no I/O and installs
no subscription.  The fetch-on-first-subscription behaviour of the
underlying cache observer is modelled from the spec ("the first
observation of an unfetched/stale key triggers exactly one fetch",
"while inactive it performs no network/cache activity"). -/

/-- Observable lifecycle state of one adapter instance: current reactive
observer count, whether the `startTracking` subscriptions are installed,
how many fetches the underlying cache entry has run, the entry's data,
and whether the entry has ever been fetched. -/
structure AdapterSim (α : Type) where
  observerCount : Nat
  subscribed : Bool
  fetchCount : Nat
  entryData : Option α
  touched : Bool
deriving DecidableEq, Repr

/-- State after construction (`new MobxQuery(getOptions)`): no
observers, no subscription, no fetch issued, untouched entry. -/
def AdapterSim.construct {α : Type} : AdapterSim α :=
  { observerCount := 0, subscribed := false, fetchCount := 0,
    entryData := none, touched := false }

/-- Lifecycle events: a reactive context starts observing the adapter, a
reactive context stops observing it, or wall-clock time passes with no
interaction. -/
inductive AdapterEvent where
  | observe
  | unobserve
  | tick
deriving DecidableEq, Repr

/-- One lifecycle step.  `observe` on the first observer fires the
atom's onBecomeObserved hook: `startTracking` installs the subscriptions
and, per the spec's ensure-fresh policy, the subscription triggers
exactly one fetch when the key is enabled and previously untouched
(modelled from the spec).  `unobserve` past the last observer fires
`stopTracking`, removing the subscriptions.  `tick` is elapsed time: an
adapter performs no spontaneous cache or network operation (the client
disables focus refetching and sets no refetch interval). -/
def AdapterSim.step {α : Type} (enabled : Bool) (fetched : Option α)
    (s : AdapterSim α) : AdapterEvent → AdapterSim α
  | AdapterEvent.observe =>
      if s.observerCount = 0 then
        let doFetch := enabled && !s.touched
        { observerCount := 1, subscribed := true,
          fetchCount := s.fetchCount + (if doFetch then 1 else 0),
          entryData := if doFetch then fetched else s.entryData,
          touched := s.touched || doFetch }
      else { s with observerCount := s.observerCount + 1 }
  | AdapterEvent.unobserve =>
      if s.observerCount ≤ 1 then
        { s with observerCount := 0, subscribed := false }
      else { s with observerCount := s.observerCount - 1 }
  | AdapterEvent.tick => s

/-- Run a sequence of lifecycle events. -/
def AdapterSim.run {α : Type} (enabled : Bool) (fetched : Option α)
    (s : AdapterSim α) (events : List AdapterEvent) : AdapterSim α :=
  events.foldl (AdapterSim.step enabled fetched) s

/-! ### The by-id detail query configurations

Every entity store constructs its by-id detail query with
`enabled: false` and `queryFn: async () => undefined`.  A query
function is modelled by the value its promise resolves to together with
the number of transport calls its body makes; `async () => undefined`
resolves `undefined` and calls no transport. -/

/-- A `MobxQuery` configuration as produced by the entity stores. -/
structure QueryConfig (α : Type) where
  queryKey : QueryKey
  enabled : Bool
  queryFnResolvesTo : Option α
  queryFnTransportCalls : Nat
deriving Repr

/-- GroupsEntityHttp.getGroupQuery config: key `["group","http"]`,
disabled, `async () => undefined`. -/
def getGroupQueryHttpConfig : QueryConfig GroupDto :=
  { queryKey := ["group", "http"], enabled := false,
    queryFnResolvesTo := none, queryFnTransportCalls := 0 }

/-- GroupsEntityWebSocket.getGroupQuery config. -/
def getGroupQueryWsConfig : QueryConfig GroupDto :=
  { queryKey := ["group", "websocket"], enabled := false,
    queryFnResolvesTo := none, queryFnTransportCalls := 0 }

/-- UsersEntityHttp.getUserQuery config. -/
def getUserQueryHttpConfig : QueryConfig UserDto :=
  { queryKey := ["user", "http"], enabled := false,
    queryFnResolvesTo := none, queryFnTransportCalls := 0 }

/-- UsersEntityWebSocket.getUserQuery config. -/
def getUserQueryWsConfig : QueryConfig UserDto :=
  { queryKey := ["user", "websocket"], enabled := false,
    queryFnResolvesTo := none, queryFnTransportCalls := 0 }

/-- RolesEntityHttp.getRoleQuery config. -/
def getRoleQueryHttpConfig : QueryConfig RoleDto :=
  { queryKey := ["role", "http"], enabled := false,
    queryFnResolvesTo := none, queryFnTransportCalls := 0 }

/-- RolesEntityWebSocket.getRoleQuery config. -/
def getRoleQueryWsConfig : QueryConfig RoleDto :=
  { queryKey := ["role", "websocket"], enabled := false,
    queryFnResolvesTo := none, queryFnTransportCalls := 0 }

/-- AccessEntityHttp.getAccessBySubjectQuery config. -/
def getAccessBySubjectQueryHttpConfig : QueryConfig AccessDto :=
  { queryKey := ["access", "subject", "http"], enabled := false,
    queryFnResolvesTo := none, queryFnTransportCalls := 0 }

/-- AccessEntityWebSocket.getAccessBySubjectQuery config. -/
def getAccessBySubjectQueryWsConfig : QueryConfig AccessDto :=
  { queryKey := ["access", "subject", "websocket"], enabled := false,
    queryFnResolvesTo := none, queryFnTransportCalls := 0 }

/-! ### The suspending data accessor -/

/-- The synchronous result descriptor returned by the query observer
(the fields MobxQuery exposes). -/
structure QueryResult (α : Type) where
  data : Option α
  isLoading : Bool
  isFetching : Bool
  isError : Bool
  isSuccess : Bool
  error : Option String
deriving DecidableEq, Repr

/-- What a `MobxQuery.data` access yields: either it surfaces the
in-flight fetch operation to the caller's execution context
(`throw this.observer.fetchOptimistic(this.options)` — the thrown
promise is the pending fetch handle React Suspense awaits), or it
returns the current data. -/
inductive DataAccess (α φ : Type) where
  | suspended (pending : φ)
  | ready (data : Option α)
deriving DecidableEq, Repr

/-- MobxQuery.data: `if (result.isLoading && !result.data) throw
this.observer.fetchOptimistic(this.options); return result.data`.
`inFlightFetch` is the fetch operation `fetchOptimistic` hands back for
the current options (under the cache's at-most-one-in-flight-per-key
rule, the fetch in flight for the key). -/
def dataGetter {α φ : Type} (result : QueryResult α) (inFlightFetch : φ) :
    DataAccess α φ :=
  if result.isLoading && result.data.isNone then
    DataAccess.suspended inFlightFetch
  else
    DataAccess.ready result.data

/-! ### The result getters of the two adapters

`MobxQuery.result` runs `this.atom.reportObserved()`, then
`this.observer.setOptions(this.options)` and returns
`this.observer.getOptimisticResult(this.options)`; each read of
`this.options` evaluates the config producer `this.getOptions()`.
`MobxMutation.result` runs `this.atom.reportObserved()` and returns
`this.observer.getCurrentResult()` — no read of `this.options`, so the
config producer is not evaluated on that path. -/

/-- Observable bookkeeping of one adapter around its result getter:
how often the config producer has been invoked, the options last pushed
into the underlying observer, the observer's current result, and how
often the atom reported itself observed. -/
structure ResultReadSim (ο ρ : Type) where
  producerCalls : Nat
  observerOptions : ο
  currentResult : ρ
  observedReports : Nat
deriving DecidableEq, Repr

/-- MobxQuery.result: report the atom observed, evaluate the config
producer and push the fresh options into the observer (`setOptions`),
evaluate it again for `getOptimisticResult` and return that optimistic
result.  `producer` is the current output of `getOptions` (composed with
`queryClient.defaultQueryOptions`), `optimistic` the observer's
result-for-options function. -/
def mobxQueryResultRead {ο ρ : Type} (producer : ο) (optimistic : ο → ρ)
    (s : ResultReadSim ο ρ) : ResultReadSim ο ρ × ρ :=
  ({ producerCalls := s.producerCalls + 2,
     observerOptions := producer,
     currentResult := s.currentResult,
     observedReports := s.observedReports + 1 },
   optimistic producer)

/-- MobxMutation.result: report the atom observed and return the
observer's current result.  The config producer is not invoked and the
observer's options are untouched. -/
def mobxMutationResultRead {ο ρ : Type} (s : ResultReadSim ο ρ) :
    ResultReadSim ο ρ × ρ :=
  ({ s with observedReports := s.observedReports + 1 }, s.currentResult)

/-! ### WebSocketApi.emit

`emit(event, data?)` returns a promise; it arms a 10000 ms timer whose
callback rejects with `WebSocket timeout for event: <event>`, and passes
an acknowledgment callback that clears the timer and resolves with the
response.  (The `data !== undefined` branch only changes the socket call
signature, not the settlement logic.)  A JavaScript promise settles at
most once: later resolve/reject calls are no-ops.  The single-threaded
event loop is modelled as the ordered sequence of the two callbacks'
invocations. -/

/-- The fixed acknowledgment timeout of `WebSocketApi.emit`, in
milliseconds. -/
def emitTimeoutMs : Nat := 10000

/-- Callbacks the event loop can run for one `emit` call: the armed
timer fires, or the server acknowledgment arrives with a response. -/
inductive EmitEvent (α : Type) where
  | timerFire
  | ack (response : α)
deriving DecidableEq, Repr

/-- State of one `emit` call's promise and timer.  `settled` is the
promise's outcome once fixed (`Except.error` a rejection with the given
message, `Except.ok` a resolution). -/
structure EmitState (α : Type) where
  settled : Option (Except String α)
  timerCleared : Bool
deriving Repr

/-- State right after `emit` returns: promise pending, timer armed. -/
def EmitState.start {α : Type} : EmitState α :=
  { settled := none, timerCleared := false }

/-- One event-loop step.  A fired timer that was not cleared rejects the
promise unless it already settled; the acknowledgment callback runs
`clearTimeout` and then resolves, which is a no-op on a settled
promise. -/
def emitStep {α : Type} (event : String) (s : EmitState α) :
    EmitEvent α → EmitState α
  | EmitEvent.timerFire =>
      if s.timerCleared then s
      else
        { s with settled :=
            match s.settled with
            | none => some (Except.error ("WebSocket timeout for event: " ++ event))
            | some r => some r }
  | EmitEvent.ack response =>
      { timerCleared := true,
        settled :=
          match s.settled with
          | none => some (Except.ok response)
          | some r => some r }

/-- Run the event loop over a sequence of callbacks for one `emit`. -/
def emitRun {α : Type} (event : String) (events : List (EmitEvent α)) :
    EmitState α :=
  events.foldl (emitStep event) EmitState.start

/-! ## Helper lemmas about the cache operations -/

/-- Reading back the key just written yields the written entry. -/
theorem getEntry_writeEntry_self (key : QueryKey) (e : CacheEntry) (c : QueryCache) :
    getEntry (writeEntry key e c) key = some e := by
  induction c with
  | nil => simp [writeEntry, getEntry]
  | cons p rest ih =>
      obtain ⟨k0, e0⟩ := p
      by_cases h : k0 = key
      · simp [writeEntry, h, getEntry]
      · simp [writeEntry, h, getEntry, ih]

/-- Writing one key leaves every other key's entry unchanged. -/
theorem getEntry_writeEntry_ne (key k : QueryKey) (e : CacheEntry) (c : QueryCache)
    (h : k ≠ key) : getEntry (writeEntry key e c) k = getEntry c k := by
  have hne : ¬ key = k := fun hh => h hh.symm
  induction c with
  | nil => simp [writeEntry, getEntry, hne]
  | cons p rest ih =>
      obtain ⟨k0, e0⟩ := p
      by_cases h0 : k0 = key
      · subst h0
        simp [writeEntry, getEntry, hne]
      · by_cases hk : k0 = k
        · subst hk
          simp [writeEntry, h0, getEntry]
        · simp [writeEntry, h0, getEntry, hk, ih]

/-- `invalidateQueries` maps each entry in place: matched keys get their
stale flag set, data intact; unmatched keys are untouched; no entry is
added or removed. -/
theorem getEntry_invalidateQueries (pat : QueryKey) (c : QueryCache) (k : QueryKey) :
    getEntry (invalidateQueries pat c) k =
      (getEntry c k).map
        (fun e => if partialMatchKey pat k then { e with stale := true } else e) := by
  induction c with
  | nil => simp [invalidateQueries, getEntry]
  | cons p rest ih =>
      obtain ⟨k0, e0⟩ := p
      by_cases hm : partialMatchKey pat k0
      · have hcons : invalidateQueries pat ((k0, e0) :: rest) =
            (k0, { e0 with stale := true }) :: invalidateQueries pat rest := by
          simp [invalidateQueries, hm]
        rw [hcons]
        by_cases hk : k0 = k
        · subst hk
          simp [getEntry, hm]
        · simp [getEntry, hk, ih]
      · have hcons : invalidateQueries pat ((k0, e0) :: rest) =
            (k0, e0) :: invalidateQueries pat rest := by
          simp [invalidateQueries, hm]
        rw [hcons]
        by_cases hk : k0 = k
        · subst hk
          simp [getEntry, hm]
        · simp [getEntry, hk, ih]

/-- An entry at a key matched by the invalidation pattern comes out with
the same data and its stale flag set. -/
theorem invalidate_marks (pat : QueryKey) (c : QueryCache) (k : QueryKey) (e : CacheEntry)
    (hm : partialMatchKey pat k = true) (he : getEntry c k = some e) :
    getEntry (invalidateQueries pat c) k = some { e with stale := true } := by
  rw [getEntry_invalidateQueries, he]
  simp [hm]

/-- A single-token pattern matches exactly the keys starting with that
token. -/
theorem partialMatchKey_single {t : String} {k : QueryKey}
    (h : partialMatchKey [t] k = true) : ∃ rest, k = t :: rest := by
  cases k with
  | nil => simp [partialMatchKey] at h
  | cons b rest =>
      simp [partialMatchKey] at h
      exact ⟨rest, by rw [h]⟩

/-- Cache effect shared by every "direct write, then invalidate" handler:
at a key matched by the pattern and different from the written key, the
entry survives with the same data and is marked stale. -/
theorem setThenInvalidate_marks (setKey pat : QueryKey) (entry : CacheEntry)
    (c : QueryCache) (k : QueryKey) (e : CacheEntry) (hne : k ≠ setKey)
    (hm : partialMatchKey pat k = true) (he : getEntry c k = some e) :
    getEntry (invalidateQueries pat (writeEntry setKey entry c)) k =
      some { e with stale := true } := by
  apply invalidate_marks _ _ _ _ hm
  rw [getEntry_writeEntry_ne _ _ _ _ hne]
  exact he

/-- The groups list read back after a "set groups list, then invalidate a
non-groups pattern" handler is the updater applied to the previous
list. -/
theorem oldGroups_set_invalidate (key pat : QueryKey)
    (f : List GroupDto → List GroupDto) (c : QueryCache)
    (hpat : partialMatchKey pat key = false) :
    oldGroups (invalidateQueries pat (setQueryDataGroups key f c)) key =
      f (oldGroups c key) := by
  simp [setQueryDataGroups, oldGroups, getQueryDataGroups,
    getEntry_invalidateQueries, getEntry_writeEntry_self, hpat]

/-- The users list read back after a users `setQueryData` is the updater
applied to the previous list. -/
theorem oldUsers_set (key : QueryKey) (f : List UserDto → List UserDto)
    (c : QueryCache) :
    oldUsers (setQueryDataUsers key f c) key = f (oldUsers c key) := by
  simp [setQueryDataUsers, oldUsers, getQueryDataUsers, getEntry_writeEntry_self]

/-! ## Claim theorems -/

/-- C1 (counterexample): the claim says every declared invalidation
edge is honoured by the source entity's create, update and delete
mutations alike; but a successful execution of
RolesEntityHttp.createRoleMutation leaves a pre-existing
`["groups","http"]` entry fresh (stale = false) — the roles→groups edge
is not declared on the create mutation. -/
theorem rolesHttpCreate_preserves_groups_freshness :
    getEntry
      ((mutate (createRoleFn (ApiResponse.success { id := 1, name := "admin" }))
          rolesHttpCreateOnSuccess
          [(["groups", "http"], { data := CacheData.groups [], stale := false })]).cache)
      ["groups", "http"] =
      some { data := CacheData.groups [], stale := false } := by
  decide

/-- C1 (amended): the declared invalidation edges are groups→access on
create, update and delete (both transports) and roles→groups on update
and delete only (both transports): each such mutation's onSuccess marks
every cache entry whose key is prefixed by the dependent entity's name
stale without deleting it (data preserved); the roles create mutations
declare no edge — their onSuccess leaves every entry other than their
own roles list entry completely unchanged. -/
theorem declaredInvalidationEdges_cache_effects :
    (∀ (g : GroupDto) (c : QueryCache) (k : QueryKey) (e : CacheEntry),
        partialMatchKey ["access"] k = true → getEntry c k = some e →
        getEntry (groupsHttpCreateOnSuccess g c) k = some { e with stale := true }) ∧
    (∀ (u : GroupDto) (c : QueryCache) (k : QueryKey) (e : CacheEntry),
        partialMatchKey ["access"] k = true → getEntry c k = some e →
        getEntry (groupsHttpUpdateOnSuccess u c) k = some { e with stale := true }) ∧
    (∀ (d : DeleteResult) (c : QueryCache) (k : QueryKey) (e : CacheEntry),
        partialMatchKey ["access"] k = true → getEntry c k = some e →
        getEntry (groupsHttpDeleteOnSuccess d c) k = some { e with stale := true }) ∧
    (∀ (g : GroupDto) (c : QueryCache) (k : QueryKey) (e : CacheEntry),
        partialMatchKey ["access"] k = true → getEntry c k = some e →
        getEntry (groupsWsCreateOnSuccess g c) k = some { e with stale := true }) ∧
    (∀ (u : GroupDto) (c : QueryCache) (k : QueryKey) (e : CacheEntry),
        partialMatchKey ["access"] k = true → getEntry c k = some e →
        getEntry (groupsWsUpdateOnSuccess u c) k = some { e with stale := true }) ∧
    (∀ (d : DeleteResult) (c : QueryCache) (k : QueryKey) (e : CacheEntry),
        partialMatchKey ["access"] k = true → getEntry c k = some e →
        getEntry (groupsWsDeleteOnSuccess d c) k = some { e with stale := true }) ∧
    (∀ (u : RoleDto) (c : QueryCache) (k : QueryKey) (e : CacheEntry),
        partialMatchKey ["groups"] k = true → getEntry c k = some e →
        getEntry (rolesHttpUpdateOnSuccess u c) k = some { e with stale := true }) ∧
    (∀ (d : DeleteResult) (c : QueryCache) (k : QueryKey) (e : CacheEntry),
        partialMatchKey ["groups"] k = true → getEntry c k = some e →
        getEntry (rolesHttpDeleteOnSuccess d c) k = some { e with stale := true }) ∧
    (∀ (u : RoleDto) (c : QueryCache) (k : QueryKey) (e : CacheEntry),
        partialMatchKey ["groups"] k = true → getEntry c k = some e →
        getEntry (rolesWsUpdateOnSuccess u c) k = some { e with stale := true }) ∧
    (∀ (d : DeleteResult) (c : QueryCache) (k : QueryKey) (e : CacheEntry),
        partialMatchKey ["groups"] k = true → getEntry c k = some e →
        getEntry (rolesWsDeleteOnSuccess d c) k = some { e with stale := true }) ∧
    (∀ (r : RoleDto) (c : QueryCache) (k : QueryKey),
        k ≠ ["roles", "http"] →
        getEntry (rolesHttpCreateOnSuccess r c) k = getEntry c k) ∧
    (∀ (r : RoleDto) (c : QueryCache) (k : QueryKey),
        k ≠ ["roles", "websocket"] →
        getEntry (rolesWsCreateOnSuccess r c) k = getEntry c k) := by
  refine ⟨?_, ?_, ?_, ?_, ?_, ?_, ?_, ?_, ?_, ?_, ?_, ?_⟩
  · intro g c k e hm he
    obtain ⟨rest, hk⟩ := partialMatchKey_single hm
    subst hk
    simp only [groupsHttpCreateOnSuccess, setQueryDataGroups]
    exact setThenInvalidate_marks _ _ _ _ _ _ (by simp) hm he
  · intro u c k e hm he
    obtain ⟨rest, hk⟩ := partialMatchKey_single hm
    subst hk
    simp only [groupsHttpUpdateOnSuccess, setQueryDataGroups]
    exact setThenInvalidate_marks _ _ _ _ _ _ (by simp) hm he
  · intro d c k e hm he
    obtain ⟨rest, hk⟩ := partialMatchKey_single hm
    subst hk
    simp only [groupsHttpDeleteOnSuccess, setQueryDataGroups]
    exact setThenInvalidate_marks _ _ _ _ _ _ (by simp) hm he
  · intro g c k e hm he
    obtain ⟨rest, hk⟩ := partialMatchKey_single hm
    subst hk
    simp only [groupsWsCreateOnSuccess, setQueryDataGroups]
    exact setThenInvalidate_marks _ _ _ _ _ _ (by simp) hm he
  · intro u c k e hm he
    obtain ⟨rest, hk⟩ := partialMatchKey_single hm
    subst hk
    simp only [groupsWsUpdateOnSuccess, setQueryDataGroups]
    exact setThenInvalidate_marks _ _ _ _ _ _ (by simp) hm he
  · intro d c k e hm he
    obtain ⟨rest, hk⟩ := partialMatchKey_single hm
    subst hk
    simp only [groupsWsDeleteOnSuccess, setQueryDataGroups]
    exact setThenInvalidate_marks _ _ _ _ _ _ (by simp) hm he
  · intro u c k e hm he
    obtain ⟨rest, hk⟩ := partialMatchKey_single hm
    subst hk
    simp only [rolesHttpUpdateOnSuccess, setQueryDataRoles]
    exact setThenInvalidate_marks _ _ _ _ _ _ (by simp) hm he
  · intro d c k e hm he
    obtain ⟨rest, hk⟩ := partialMatchKey_single hm
    subst hk
    simp only [rolesHttpDeleteOnSuccess, setQueryDataRoles]
    exact setThenInvalidate_marks _ _ _ _ _ _ (by simp) hm he
  · intro u c k e hm he
    obtain ⟨rest, hk⟩ := partialMatchKey_single hm
    subst hk
    simp only [rolesWsUpdateOnSuccess, setQueryDataRoles]
    exact setThenInvalidate_marks _ _ _ _ _ _ (by simp) hm he
  · intro d c k e hm he
    obtain ⟨rest, hk⟩ := partialMatchKey_single hm
    subst hk
    simp only [rolesWsDeleteOnSuccess, setQueryDataRoles]
    exact setThenInvalidate_marks _ _ _ _ _ _ (by simp) hm he
  · intro r c k hk
    simp only [rolesHttpCreateOnSuccess, setQueryDataRoles]
    exact getEntry_writeEntry_ne _ _ _ _ hk
  · intro r c k hk
    simp only [rolesWsCreateOnSuccess, setQueryDataRoles]
    exact getEntry_writeEntry_ne _ _ _ _ hk

/-- Concrete instance of the amended invalidation-edge theorem: a group
update marks a pre-existing `["access","websocket"]` entry stale with
its data intact. -/
theorem declaredInvalidationEdges_cache_effects_witness :
    getEntry
      (groupsHttpUpdateOnSuccess { id := 2, name := "g", roles := [], description := none }
        [(["access", "websocket"],
          { data := CacheData.access [{ subject := 1, groups := [2] }], stale := false })])
      ["access", "websocket"] =
      some { data := CacheData.access [{ subject := 1, groups := [2] }], stale := true } :=
  declaredInvalidationEdges_cache_effects.2.1
    { id := 2, name := "g", roles := [], description := none }
    [(["access", "websocket"],
      { data := CacheData.access [{ subject := 1, groups := [2] }], stale := false })]
    ["access", "websocket"]
    { data := CacheData.access [{ subject := 1, groups := [2] }], stale := false }
    (by decide) (by decide)

/-- C2: each entity store's create/update/delete onSuccess rewrites the
entity's list-shaped cache entry by producing a new collection from the
previous one: create appends the new record, update maps each record to
the result exactly when the ids match (others map to themselves), and
delete keeps exactly the records whose id differs.  Stated for the cited
GroupsEntityHttp and UsersEntityHttp handlers, over every prior cache
state. -/
theorem mutationOnSuccess_list_rewrite :
    (∀ (g : GroupDto) (c : QueryCache),
        oldGroups (groupsHttpCreateOnSuccess g c) ["groups", "http"] =
          oldGroups c ["groups", "http"] ++ [g]) ∧
    (∀ (u : GroupDto) (c : QueryCache),
        oldGroups (groupsHttpUpdateOnSuccess u c) ["groups", "http"] =
          (oldGroups c ["groups", "http"]).map
            (fun group => if group.id == u.id then u else group)) ∧
    (∀ (d : DeleteResult) (c : QueryCache),
        oldGroups (groupsHttpDeleteOnSuccess d c) ["groups", "http"] =
          (oldGroups c ["groups", "http"]).filter
            (fun group => !(group.id == d.id))) ∧
    (∀ (u : UserDto) (c : QueryCache),
        oldUsers (usersHttpCreateOnSuccess u c) ["users", "http"] =
          oldUsers c ["users", "http"] ++ [u]) ∧
    (∀ (u : UserDto) (c : QueryCache),
        oldUsers (usersHttpUpdateOnSuccess u c) ["users", "http"] =
          (oldUsers c ["users", "http"]).map
            (fun user => if user.id == u.id then u else user)) ∧
    (∀ (d : DeleteResult) (c : QueryCache),
        oldUsers (usersHttpDeleteOnSuccess d c) ["users", "http"] =
          (oldUsers c ["users", "http"]).filter
            (fun user => !(user.id == d.id))) := by
  refine ⟨?_, ?_, ?_, ?_, ?_, ?_⟩
  · intro g c
    simpa [groupsHttpCreateOnSuccess] using
      oldGroups_set_invalidate ["groups", "http"] ["access"]
        (fun old => old ++ [g]) c (by decide)
  · intro u c
    simpa [groupsHttpUpdateOnSuccess] using
      oldGroups_set_invalidate ["groups", "http"] ["access"]
        (List.map (fun group => if group.id == u.id then u else group)) c (by decide)
  · intro d c
    simpa [groupsHttpDeleteOnSuccess] using
      oldGroups_set_invalidate ["groups", "http"] ["access"]
        (List.filter (fun group => !(group.id == d.id))) c (by decide)
  · intro u c
    simpa [usersHttpCreateOnSuccess] using
      oldUsers_set ["users", "http"] (fun old => old ++ [u]) c
  · intro u c
    simpa [usersHttpUpdateOnSuccess] using
      oldUsers_set ["users", "http"]
        (List.map (fun user => if user.id == u.id then u else user)) c
  · intro d c
    simpa [usersHttpDeleteOnSuccess] using
      oldUsers_set ["users", "http"]
        (List.filter (fun user => !(user.id == d.id))) c

/-- C3: when the underlying write resolves, `execute` runs the
configured onSuccess exactly once and the cache state the settled
promise hands the caller's continuation is the post-onSuccess state;
instantiated with GroupsEntityHttp's create mutation, whose write
resolves exactly when the envelope is successful. -/
theorem mutate_success_runs_onSuccess_before_resolve {α : Type}
    (written : Except String α) (onS : α → QueryCache → QueryCache)
    (c : QueryCache) (d : α) (h : written = Except.ok d) :
    mutate written onS c =
      { cache := onS d c, onSuccessCalls := 1, result := Except.ok d } ∧
    (∀ (g : GroupDto) (c2 : QueryCache),
        mutate (createGroupFn (ApiResponse.success g)) groupsHttpCreateOnSuccess c2 =
          { cache := groupsHttpCreateOnSuccess g c2, onSuccessCalls := 1,
            result := Except.ok g }) := by
  subst h
  exact ⟨rfl, fun g c2 => rfl⟩

/-- Concrete instance: a resolved create-user write runs onSuccess once
and resolves with the new record. -/
theorem mutate_success_runs_onSuccess_before_resolve_witness :
    mutate (Except.ok { id := 3, name := "Ana", email := "a@x.com" })
        usersHttpCreateOnSuccess [] =
      { cache := usersHttpCreateOnSuccess { id := 3, name := "Ana", email := "a@x.com" } [],
        onSuccessCalls := 1,
        result := Except.ok { id := 3, name := "Ana", email := "a@x.com" } } :=
  (mutate_success_runs_onSuccess_before_resolve
      (Except.ok { id := 3, name := "Ana", email := "a@x.com" })
      usersHttpCreateOnSuccess [] { id := 3, name := "Ana", email := "a@x.com" } rfl).1

/-- C4: when the underlying write rejects, `execute` rejects with the
original error, never invokes onSuccess, and leaves every cache entry of
every key untouched; instantiated with GroupsEntityHttp's create
mutation on an unsuccessful envelope. -/
theorem mutate_failure_rejects_cache_untouched {α : Type}
    (written : Except String α) (onS : α → QueryCache → QueryCache)
    (c : QueryCache) (e : String) (h : written = Except.error e) :
    mutate written onS c =
      { cache := c, onSuccessCalls := 0, result := Except.error e } ∧
    (∀ (k : QueryKey), getEntry (mutate written onS c).cache k = getEntry c k) ∧
    (∀ (msg : String) (c2 : QueryCache),
        mutate (createGroupFn (ApiResponse.failure msg)) groupsHttpCreateOnSuccess c2 =
          { cache := c2, onSuccessCalls := 0, result := Except.error msg }) := by
  subst h
  exact ⟨rfl, fun k => rfl, fun msg c2 => rfl⟩

/-- Concrete instance: a rejected write leaves the cache exactly as it
was and carries the original error. -/
theorem mutate_failure_rejects_cache_untouched_witness :
    mutate (Except.error "Validation failed") usersHttpCreateOnSuccess
        [(["users", "http"],
          { data := CacheData.users [{ id := 1, name := "U", email := "u@x.com" }],
            stale := false })] =
      { cache := [(["users", "http"],
          { data := CacheData.users [{ id := 1, name := "U", email := "u@x.com" }],
            stale := false })],
        onSuccessCalls := 0, result := Except.error "Validation failed" } :=
  (mutate_failure_rejects_cache_untouched (Except.error "Validation failed")
      usersHttpCreateOnSuccess
      [(["users", "http"],
        { data := CacheData.users [{ id := 1, name := "U", email := "u@x.com" }],
          stale := false })]
      "Validation failed" rfl).1

/-- C5: construction yields a state with zero observers, no subscription
and zero fetches; the first observer installs the subscriptions, the
last observer leaving removes them; the first observation of a
previously-untouched enabled key triggers exactly one fetch and a
touched key triggers none; and with zero observers any amount of elapsed
time performs no operation at all. -/
theorem mobxAdapter_lazy_activation {α : Type} (enabled : Bool) (fetched : Option α) :
    ((AdapterSim.construct : AdapterSim α).observerCount = 0 ∧
     (AdapterSim.construct : AdapterSim α).subscribed = false ∧
     (AdapterSim.construct : AdapterSim α).fetchCount = 0) ∧
    (∀ s : AdapterSim α, s.observerCount = 0 →
        (s.step enabled fetched AdapterEvent.observe).subscribed = true) ∧
    (∀ s : AdapterSim α, s.observerCount = 1 →
        (s.step enabled fetched AdapterEvent.unobserve).subscribed = false ∧
        (s.step enabled fetched AdapterEvent.unobserve).observerCount = 0) ∧
    (∀ s : AdapterSim α, s.observerCount = 0 → s.touched = false →
        (s.step true fetched AdapterEvent.observe).fetchCount = s.fetchCount + 1) ∧
    (∀ (s : AdapterSim α) (ev : AdapterEvent), s.touched = true →
        (s.step enabled fetched ev).fetchCount = s.fetchCount) ∧
    (∀ (s : AdapterSim α) (events : List AdapterEvent),
        s.observerCount = 0 → (∀ ev ∈ events, ev = AdapterEvent.tick) →
        AdapterSim.run enabled fetched s events = s) := by
  refine ⟨⟨rfl, rfl, rfl⟩, ?_, ?_, ?_, ?_, ?_⟩
  · intro s h
    simp [AdapterSim.step, h]
  · intro s h
    simp [AdapterSim.step, h]
  · intro s h0 ht
    simp [AdapterSim.step, h0, ht]
  · intro s ev ht
    cases ev with
    | observe => by_cases h : s.observerCount = 0 <;> simp [AdapterSim.step, h, ht]
    | unobserve => by_cases h : s.observerCount ≤ 1 <;> simp [AdapterSim.step, h]
    | tick => rfl
  · intro s events h0 hall
    induction events with
    | nil => rfl
    | cons ev rest ih =>
        have hev : ev = AdapterEvent.tick := hall ev (by simp)
        subst hev
        exact ih (fun e he => hall e (by simp [he]))

/-- Concrete instance: from the constructed state, the first observation
of an enabled untouched key issues exactly one fetch. -/
theorem mobxAdapter_lazy_activation_witness :
    ((AdapterSim.construct : AdapterSim UserDto).step true none
        AdapterEvent.observe).fetchCount =
      (AdapterSim.construct : AdapterSim UserDto).fetchCount + 1 :=
  (mobxAdapter_lazy_activation true none).2.2.2.1 AdapterSim.construct rfl rfl

/-- C6: a read-by-id whose cached list entry contains the id returns the
cached record with zero transport calls; when the entry is absent or
lacks the id, exactly one transport call is made and its envelope is
unwrapped (the data on success, the thrown error otherwise).  Stated for
both the HTTP and the WebSocket getGroupById. -/
theorem getGroupById_cacheFirst :
    (∀ (c : QueryCache) (t : ApiResponse GroupDto) (id : Nat)
        (l : List GroupDto) (g : GroupDto),
        getQueryDataGroups c ["groups", "http"] = some l →
        l.find? (fun x => x.id == id) = some g →
        getGroupByIdHttp c t id = (Except.ok g, 0)) ∧
    (∀ (c : QueryCache) (t : ApiResponse GroupDto) (id : Nat),
        (getQueryDataGroups c ["groups", "http"]).bind
            (fun gs => gs.find? (fun x => x.id == id)) = none →
        getGroupByIdHttp c t id = (unwrapResponse t, 1)) ∧
    (∀ (c : QueryCache) (t : ApiResponse GroupDto) (id : Nat)
        (l : List GroupDto) (g : GroupDto),
        getQueryDataGroups c ["groups", "websocket"] = some l →
        l.find? (fun x => x.id == id) = some g →
        getGroupByIdWs c t id = (Except.ok g, 0)) ∧
    (∀ (c : QueryCache) (t : ApiResponse GroupDto) (id : Nat),
        (getQueryDataGroups c ["groups", "websocket"]).bind
            (fun gs => gs.find? (fun x => x.id == id)) = none →
        getGroupByIdWs c t id = (unwrapResponse t, 1)) := by
  refine ⟨?_, ?_, ?_, ?_⟩
  · intro c t id l g hl hfind
    simp [getGroupByIdHttp, hl, hfind]
  · intro c t id h
    cases t <;> simp [getGroupByIdHttp, h, unwrapResponse]
  · intro c t id l g hl hfind
    simp [getGroupByIdWs, hl, hfind]
  · intro c t id h
    cases t <;> simp [getGroupByIdWs, h, unwrapResponse]

/-- Concrete instance: with group 5 cached, getGroupById returns it with
zero transport calls even when the transport would fail. -/
theorem getGroupById_cacheFirst_witness :
    getGroupByIdHttp
        [(["groups", "http"],
          { data := CacheData.groups [{ id := 5, name := "G5", roles := [], description := none }],
            stale := false })]
        (ApiResponse.failure "server down") 5 =
      (Except.ok { id := 5, name := "G5", roles := [], description := none }, 0) :=
  getGroupById_cacheFirst.1
    [(["groups", "http"],
      { data := CacheData.groups [{ id := 5, name := "G5", roles := [], description := none }],
        stale := false })]
    (ApiResponse.failure "server down") 5
    [{ id := 5, name := "G5", roles := [], description := none }]
    { id := 5, name := "G5", roles := [], description := none }
    (by decide) (by decide)

/-- C7: the suspending data accessor surfaces the in-flight fetch
operation when a fetch is loading with no data yet, and otherwise
returns the current data. -/
theorem dataOrSuspend_behavior {α φ : Type} (result : QueryResult α) (inflight : φ) :
    (result.isLoading = true → result.data = none →
        dataGetter result inflight = DataAccess.suspended inflight) ∧
    (result.isLoading = false →
        dataGetter result inflight = DataAccess.ready result.data) ∧
    (∀ d : α, result.data = some d →
        dataGetter result inflight = DataAccess.ready (some d)) := by
  refine ⟨?_, ?_, ?_⟩
  · intro hl hd
    simp [dataGetter, hl, hd]
  · intro hl
    simp [dataGetter, hl]
  · intro d hd
    simp [dataGetter, hd]

/-- Concrete instance: loading with no data suspends on the in-flight
fetch handle. -/
theorem dataOrSuspend_behavior_witness :
    dataGetter
        ({ data := none, isLoading := true, isFetching := true, isError := false,
           isSuccess := false, error := none } : QueryResult Nat)
        "in-flight fetch" =
      DataAccess.suspended "in-flight fetch" :=
  (dataOrSuspend_behavior
      ({ data := none, isLoading := true, isFetching := true, isError := false,
         isSuccess := false, error := none } : QueryResult Nat)
      "in-flight fetch").1 rfl rfl

/-- C8 (counterexample): a status read of a Mutation Adapter does not
re-evaluate the configProducer: `MobxMutation.result` only reports the
atom observed and returns the observer's current result, so the
producer-call count and the observer's options are unchanged — the
claimed mirror of the Query Adapter's read path does not hold. -/
theorem mutationResultRead_no_producer_call :
    (mobxMutationResultRead
        { producerCalls := 0, observerOptions := (0 : Nat), currentResult := (7 : Nat),
          observedReports := 0 }).1.producerCalls = 0 ∧
    (mobxMutationResultRead
        { producerCalls := 0, observerOptions := (0 : Nat), currentResult := (7 : Nat),
          observedReports := 0 }).1.observerOptions = 0 :=
  ⟨rfl, rfl⟩

/-- C8 (amended): the Query Adapter's result read re-evaluates its
configProducer (twice: for setOptions and for getOptimisticResult) and
pushes the fresh options into the underlying observer before returning
the optimistic result; the Mutation Adapter's status read only reports
the atom observed and returns the observer's current result, without
evaluating the configProducer or touching the observer's options. -/
theorem resultRead_producer_evaluation {ο ρ : Type} (producer : ο)
    (optimistic : ο → ρ) (s : ResultReadSim ο ρ) :
    mobxQueryResultRead producer optimistic s =
      ({ producerCalls := s.producerCalls + 2, observerOptions := producer,
         currentResult := s.currentResult,
         observedReports := s.observedReports + 1 }, optimistic producer) ∧
    mobxMutationResultRead s =
      ({ s with observedReports := s.observedReports + 1 }, s.currentResult) :=
  ⟨rfl, rfl⟩

/-- Invariant behind C9: with `enabled: false` the adapter never
fetches, so the entry's fetch count and data never move from their
constructed values, whatever the observation history. -/
theorem run_disabled_invariant {α : Type} (fetched : Option α)
    (s : AdapterSim α) (events : List AdapterEvent) :
    (AdapterSim.run false fetched s events).fetchCount = s.fetchCount ∧
    (AdapterSim.run false fetched s events).entryData = s.entryData := by
  induction events generalizing s with
  | nil => exact ⟨rfl, rfl⟩
  | cons ev rest ih =>
      have hstep : (AdapterSim.step false fetched s ev).fetchCount = s.fetchCount ∧
          (AdapterSim.step false fetched s ev).entryData = s.entryData := by
        cases ev with
        | observe => by_cases h : s.observerCount = 0 <;> simp [AdapterSim.step, h]
        | unobserve => by_cases h : s.observerCount ≤ 1 <;> simp [AdapterSim.step, h]
        | tick => exact ⟨rfl, rfl⟩
      have h1 := ih (AdapterSim.step false fetched s ev)
      exact ⟨h1.1.trans hstep.1, h1.2.trans hstep.2⟩

/-- C9: every by-id detail Query Adapter of the entity stores is
constructed with `enabled: false` and a fetch function that resolves to
`undefined` making no transport call; consequently, for every
observation history of such a disabled adapter, no fetch is ever issued
and the entry data stays `undefined`. -/
theorem detailQueries_disabled_and_undefined :
    (getGroupQueryHttpConfig.enabled = false ∧
     getGroupQueryHttpConfig.queryFnResolvesTo = none ∧
     getGroupQueryHttpConfig.queryFnTransportCalls = 0) ∧
    (getGroupQueryWsConfig.enabled = false ∧
     getGroupQueryWsConfig.queryFnResolvesTo = none ∧
     getGroupQueryWsConfig.queryFnTransportCalls = 0) ∧
    (getUserQueryHttpConfig.enabled = false ∧
     getUserQueryHttpConfig.queryFnResolvesTo = none ∧
     getUserQueryHttpConfig.queryFnTransportCalls = 0) ∧
    (getUserQueryWsConfig.enabled = false ∧
     getUserQueryWsConfig.queryFnResolvesTo = none ∧
     getUserQueryWsConfig.queryFnTransportCalls = 0) ∧
    (getRoleQueryHttpConfig.enabled = false ∧
     getRoleQueryHttpConfig.queryFnResolvesTo = none ∧
     getRoleQueryHttpConfig.queryFnTransportCalls = 0) ∧
    (getRoleQueryWsConfig.enabled = false ∧
     getRoleQueryWsConfig.queryFnResolvesTo = none ∧
     getRoleQueryWsConfig.queryFnTransportCalls = 0) ∧
    (getAccessBySubjectQueryHttpConfig.enabled = false ∧
     getAccessBySubjectQueryHttpConfig.queryFnResolvesTo = none ∧
     getAccessBySubjectQueryHttpConfig.queryFnTransportCalls = 0) ∧
    (getAccessBySubjectQueryWsConfig.enabled = false ∧
     getAccessBySubjectQueryWsConfig.queryFnResolvesTo = none ∧
     getAccessBySubjectQueryWsConfig.queryFnTransportCalls = 0) ∧
    (∀ (α : Type) (fetched : Option α) (events : List AdapterEvent),
        (AdapterSim.run false fetched AdapterSim.construct events).fetchCount = 0 ∧
        (AdapterSim.run false fetched AdapterSim.construct events).entryData = none) :=
  ⟨⟨rfl, rfl, rfl⟩, ⟨rfl, rfl, rfl⟩, ⟨rfl, rfl, rfl⟩, ⟨rfl, rfl, rfl⟩,
   ⟨rfl, rfl, rfl⟩, ⟨rfl, rfl, rfl⟩, ⟨rfl, rfl, rfl⟩, ⟨rfl, rfl, rfl⟩,
   fun _ fetched events => run_disabled_invariant fetched AdapterSim.construct events⟩

/-- One event-loop step never changes an already-settled promise
outcome (resolve and reject are no-ops after settlement). -/
theorem emitStep_settled_stays {α : Type} (event : String) (s : EmitState α)
    (ev : EmitEvent α) (r : Except String α) (h : s.settled = some r) :
    (emitStep event s ev).settled = some r := by
  cases ev with
  | timerFire => by_cases hc : s.timerCleared <;> simp [emitStep, hc, h]
  | ack response => simp [emitStep, h]

/-- Once settled, the promise outcome survives any further callbacks. -/
theorem emit_settled_monotone {α : Type} (event : String) (s : EmitState α)
    (rest : List (EmitEvent α)) (r : Except String α) (h : s.settled = some r) :
    (rest.foldl (emitStep event) s).settled = some r := by
  induction rest generalizing s with
  | nil => exact h
  | cons ev rest2 ih => exact ih _ (emitStep_settled_stays event s ev r h)

/-- C10: the acknowledgment timeout is the fixed 10000 ms; a settled
promise outcome never changes (the promise settles exactly once); an
acknowledgment running before the timer fires resolves the promise with
the response whatever happens later; and a timer firing first rejects
with `WebSocket timeout for event: <event>`, a late acknowledgment
leaving that outcome intact. -/
theorem webSocketEmit_settles_once :
    emitTimeoutMs = 10000 ∧
    (∀ (α : Type) (event : String) (s : EmitState α) (ev : EmitEvent α)
        (r : Except String α),
        s.settled = some r → (emitStep event s ev).settled = some r) ∧
    (∀ (α : Type) (event : String) (r : α) (rest : List (EmitEvent α)),
        (emitRun event (EmitEvent.ack r :: rest)).settled = some (Except.ok r)) ∧
    (∀ (α : Type) (event : String) (rest : List (EmitEvent α)),
        (emitRun event (EmitEvent.timerFire :: rest)).settled =
          some (Except.error ("WebSocket timeout for event: " ++ event))) := by
  refine ⟨rfl, ?_, ?_, ?_⟩
  · intro α event s ev r h
    exact emitStep_settled_stays event s ev r h
  · intro α event r rest
    exact emit_settled_monotone event _ rest _ rfl
  · intro α event rest
    exact emit_settled_monotone event _ rest _ rfl

/-- Concrete instance: an acknowledgment that arrives after the timer
already fired does not change the timeout rejection. -/
theorem webSocketEmit_settles_once_witness :
    (emitRun "users:getAll"
        [EmitEvent.timerFire, EmitEvent.ack (42 : Nat)]).settled =
      some (Except.error "WebSocket timeout for event: users:getAll") := by
  have h := webSocketEmit_settles_once.2.2.2 Nat "users:getAll" [EmitEvent.ack (42 : Nat)]
  simpa using h

end Sandbox
